/-
  Verification of the physics-driven gameplay core of the 3D ball platformer.

  Shallow embedding of the gameplay logic:
    - js/player.js        : Player movement, jumping, death/respawn (over ℝ).
    - js/obstacles.js     : DisappearingPlatform (over ℚ) and Vortex (over ℝ).
    - js/level.js         : MovingPlatform update and checkFinish.
    - CollectiblesManager : collectItem (checkpoint pickup, over ℚ).
    - js/game.js + player.js power-up timeouts : wall-clock expiry model.

  Numeric conventions: JavaScript numbers are modelled by ℝ where square
  roots occur (velocities, distances) and by ℚ for the purely
  rational-arithmetic state machines (timers, platform progress).
  Visual-only effects (particles, stripe rotation, trail meshes, colors of
  materials that no gameplay logic reads back) are omitted; every omission
  is noted at the definition it concerns.
-/
import Mathlib

/-- A 3-component vector, mirroring CANNON.Vec3 / THREE.Vector3. -/
structure Vec3 (α : Type) where
  x : α
  y : α
  z : α
  deriving Repr, DecidableEq

namespace Player

/-- Constructor constant: this.radius = 0.5 (player.js line 8). -/
def radius : ℝ := 0.5

/-- Constructor constant: this.moveForce = 20 (player.js line 11). -/
def moveForce : ℝ := 20

/-- Constructor constant: this.jumpForce = 12 (player.js line 12). -/
def jumpForce : ℝ := 12

/-- Constructor constant: this.maxSpeed = 10 (player.js line 13). -/
def maxSpeed : ℝ := 10

/-- Constructor constant: this.speedBoostFactor = 1.5 (player.js line 25). -/
def speedBoostFactor : ℝ := 1.5

/-- The field this.isOnJumpPad is read in Player.jump (player.js line 265)
but is never assigned anywhere in the repository, so every access in the
running program yields undefined, which is falsy. -/
def isOnJumpPad : Bool := false

/-- Per-frame input snapshot {forward, backward, left, right, jump}
(game.js lines 31-37). -/
structure InputState where
  forward : Bool
  backward : Bool
  left : Bool
  right : Bool
  jump : Bool

/-- The gameplay-relevant state of the Player instance together with its
CANNON body and THREE mesh.  bodyForce is the force accumulator of the
cannon body: body.applyForce adds to it and it only changes velocity at
the next physics world step, not inside player.js code.  The body has
mass 1 (PhysicsSystem.createSphereBody default), so applyImpulse adds the
impulse directly to the velocity.  meshPos is the mesh position, synced
from the body by PhysicsSystem.update between frames; player.js reads it
in checkBounds but only writes the body.  Visual-only fields (trail
particles, stripe meshes, material colors) are omitted; trailActive is
kept because applyMovementForces assigns it.  deathCallbackRuns counts
invocations of the onDeath callback; onDeathRegistered models whether
setOnDeathCallback has installed one. -/
structure PlayerState where
  bodyPos : Vec3 ℝ
  bodyVel : Vec3 ℝ
  bodyAngVel : Vec3 ℝ
  bodyForce : Vec3 ℝ
  meshPos : Vec3 ℝ
  spawnPosition : Vec3 ℝ
  moveDirX : ℝ
  moveDirZ : ℝ
  isMoving : Bool
  canJump : Bool
  isJumping : Bool
  jumpCooldown : ℝ
  hasJumpPower : Bool
  hasSpeedBoost : Bool
  trailActive : Bool
  deathCallbackRuns : ℕ
  onDeathRegistered : Bool

/-- Player.jump (player.js lines 261-278).  Early-returns unless canJump;
early-returns unless the jump power-up (or the never-set jump-pad flag) is
active; otherwise applies the fixed upward impulse (mass 1), leaves the
ground state and starts the 0.5 s cooldown.  triggerJumpEffect is a pure
particle effect and is omitted. -/
def jump (s : PlayerState) : PlayerState :=
  if !s.canJump then s
  else if !s.hasJumpPower && !isOnJumpPad then s
  else
    { s with
      bodyVel := ⟨s.bodyVel.x, s.bodyVel.y + jumpForce, s.bodyVel.z⟩
      canJump := false
      isJumping := true
      jumpCooldown := 0.5 }

/-- Player.applyMovementForces (player.js lines 191-259).  When moving:
accumulates the movement force (boost-amplified) on the body, then clamps
the horizontal velocity to the (boost-amplified) max speed by rescaling
x and z when the pre-clamp horizontal speed exceeds it, and sets
trailActive from the pre-clamp speed.  When not moving: damps horizontal
velocity by 0.95 and clears trailActive.  The stripe-mesh rotation block
(lines 236-252) only touches decorative child meshes and is omitted. -/
noncomputable def applyMovementForces (s : PlayerState) (dt : ℝ) : PlayerState :=
  if s.isMoving then
    let actualMoveForce : ℝ :=
      if s.hasSpeedBoost then moveForce * speedBoostFactor else moveForce
    let s1 : PlayerState :=
      { s with bodyForce :=
          ⟨s.bodyForce.x + s.moveDirX * actualMoveForce * dt,
           s.bodyForce.y + 0,
           s.bodyForce.z + s.moveDirZ * actualMoveForce * dt⟩ }
    let speed : ℝ := Real.sqrt (s.bodyVel.x ^ 2 + s.bodyVel.z ^ 2)
    let maxSpd : ℝ :=
      if s.hasSpeedBoost then maxSpeed * speedBoostFactor else maxSpeed
    let s2 : PlayerState :=
      if maxSpd < speed then
        { s1 with bodyVel :=
            ⟨s1.bodyVel.x * (maxSpd / speed),
             s1.bodyVel.y,
             s1.bodyVel.z * (maxSpd / speed)⟩ }
      else s1
    { s2 with trailActive := decide (maxSpd * 0.7 < speed) }
  else
    { s with
      bodyVel := ⟨s.bodyVel.x * 0.95, s.bodyVel.y, s.bodyVel.z * 0.95⟩
      trailActive := false }

/-- Horizontal speed of the body: length of the (x, z) velocity components,
as computed by new CANNON.Vec3(velocity.x, 0, velocity.z).length(). -/
noncomputable def horizSpeed (s : PlayerState) : ℝ :=
  Real.sqrt (s.bodyVel.x ^ 2 + s.bodyVel.z ^ 2)

/-- The horizontal speed cap of a state: maxSpeed, boost-amplified when the
speed boost is active (player.js lines 220-223). -/
noncomputable def speedCap (s : PlayerState) : ℝ :=
  if s.hasSpeedBoost then maxSpeed * speedBoostFactor else maxSpeed

/-- Player.respawn (player.js lines 473-490): body moved to the spawn
position, linear and angular velocity zeroed, ground state cleared,
cooldown restarted, and removeAllPowerups clears both ability flags
(the timeout bookkeeping it also clears lives in the wall-clock model
further below). -/
def respawn (s : PlayerState) : PlayerState :=
  { s with
    bodyPos := s.spawnPosition
    bodyVel := ⟨0, 0, 0⟩
    bodyAngVel := ⟨0, 0, 0⟩
    canJump := false
    isJumping := false
    jumpCooldown := 0.5
    hasJumpPower := false
    hasSpeedBoost := false }

/-- Player.die (player.js lines 385-399): death particle effect (visual,
omitted), respawn, then the onDeath callback if one is registered. -/
def die (s : PlayerState) : PlayerState :=
  let r := respawn s
  if r.onDeathRegistered then
    { r with deathCallbackRuns := r.deathCallbackRuns + 1 }
  else r

/-- Player.checkBounds (player.js lines 378-383): die when the mesh has
fallen below the death plane y = -10. -/
noncomputable def checkBounds (s : PlayerState) : PlayerState :=
  if s.meshPos.y < -10 then die s else s

/-- Player.processInput (player.js lines 160-189): rebuilds the move
direction from the four direction flags, normalizes it only when both
axes are nonzero, sets isMoving, and calls jump when the jump key is
down, the player is grounded and the cooldown has elapsed. -/
noncomputable def processInput (s : PlayerState) (input : InputState) : PlayerState :=
  let dirX : ℝ := (if input.left then (-1) else 0) + (if input.right then 1 else 0)
  let dirZ : ℝ := (if input.forward then (-1) else 0) + (if input.backward then 1 else 0)
  let s1 : PlayerState :=
    if dirX ≠ 0 ∨ dirZ ≠ 0 then
      if dirX ≠ 0 ∧ dirZ ≠ 0 then
        let len : ℝ := Real.sqrt (dirX ^ 2 + dirZ ^ 2)
        { s with moveDirX := dirX / len, moveDirZ := dirZ / len, isMoving := true }
      else
        { s with moveDirX := dirX, moveDirZ := dirZ, isMoving := true }
    else
      { s with moveDirX := dirX, moveDirZ := dirZ, isMoving := false }
  if input.jump && s1.canJump && decide (s1.jumpCooldown ≤ 0) then jump s1 else s1

/-- Player.update (player.js lines 138-158): processInput, movement
forces, bounds check, jump-cooldown decrement.  updateTrail and
updatePowerups only animate particles and stripe scales and are
omitted. -/
noncomputable def update (s : PlayerState) (dt : ℝ) (input : InputState) : PlayerState :=
  let s1 := processInput s input
  let s2 := applyMovementForces s1 dt
  let s3 := checkBounds s2
  if 0 < s3.jumpCooldown then { s3 with jumpCooldown := s3.jumpCooldown - dt } else s3

end Player

namespace Collect

/-- Collectible type tags (CollectiblesManager this.types). -/
inductive CollectibleType where
  | coin
  | jumpPower
  | speedBoost
  | checkpoint
  deriving Repr, DecidableEq

/-- A collectible record as created by createCoin / createJumpPower /
createSpeedBoost / createCheckpoint.  meshInScene tracks scene membership
(scene.add / scene.remove); meshColor, meshEmissive and meshOpacity are
the material fields that collectItem writes for checkpoints.  value is
only meaningful for coins and duration only for power-ups (the other
constructors simply do not create those JS fields; they are kept at 0
here).  activated exists only on checkpoints and is false elsewhere. -/
structure Collectible where
  ctype : CollectibleType
  meshPos : Vec3 ℚ
  meshInScene : Bool
  meshColor : ℕ
  meshEmissive : ℕ
  meshOpacity : ℚ
  collected : Bool
  activated : Bool
  basePosition : Vec3 ℚ
  radius : ℚ
  value : ℚ
  duration : ℚ
  deriving DecidableEq

/-- CollectiblesManager.createCheckpoint (part_001 lines 193-211): a fresh
checkpoint at the given position, never collected, not yet activated,
with the cloned checkpoint material (cyan, opacity 0.8). -/
def createCheckpoint (position : Vec3 ℚ) : Collectible :=
  { ctype := CollectibleType.checkpoint
    meshPos := position
    meshInScene := true
    meshColor := 0x00ffff
    meshEmissive := 0x00aaaa
    meshOpacity := 0.8
    collected := false
    activated := false
    basePosition := position
    radius := 1.0
    value := 0
    duration := 0 }

/-- The slice of the Player instance that collectItem touches:
setSpawnPoint and the two power-up grants (the grants also schedule
wall-clock timeouts; that bookkeeping is modelled in the Powerups
namespace). -/
structure CPlayer where
  spawnPosition : Vec3 ℚ
  hasJumpPower : Bool
  hasSpeedBoost : Bool
  deriving DecidableEq

/-- Callback registration (CollectiblesManager.setCallbacks) and
invocation counters for the three registered callbacks plus the general
onCollectible callback.  game.js createGameSystems registers all of
them, but the source guards each invocation, so registration is kept
explicit. -/
structure CollectEvents where
  onCoinRegistered : Bool
  onCheckpointRegistered : Bool
  onCollectibleRegistered : Bool
  coinCallbackCount : ℕ
  coinValueReported : ℚ
  checkpointCallbackCount : ℕ
  generalCallbackCount : ℕ
  deriving DecidableEq

/-- The state collectItem acts on: the collectible itself, the player
slice, and the callback counters. -/
structure CollectState where
  item : Collectible
  player : CPlayer
  events : CollectEvents
  deriving DecidableEq

/-- CollectiblesManager.collectItem (part_001 lines 213-279).  Marks the
item collected, dispatches on its type (coin: report value, remove mesh;
power-ups: grant ability, remove mesh; checkpoint: on first contact set
activated, recolor the pad, move the spawn point to one unit above the
pad and fire the activation callback, then always clear the collected
flag), and finally fires the general onCollectible callback.
createCollectionEffect only spawns particles and is omitted. -/
def collectItem (st : CollectState) : CollectState :=
  let c0 := { st.item with collected := true }
  let st1 : CollectState :=
    match c0.ctype with
    | CollectibleType.coin =>
        let ev :=
          if st.events.onCoinRegistered then
            { st.events with
              coinCallbackCount := st.events.coinCallbackCount + 1
              coinValueReported := st.events.coinValueReported + c0.value }
          else st.events
        { st with item := { c0 with meshInScene := false }, events := ev }
    | CollectibleType.jumpPower =>
        { st with
          item := { c0 with meshInScene := false }
          player := { st.player with hasJumpPower := true } }
    | CollectibleType.speedBoost =>
        { st with
          item := { c0 with meshInScene := false }
          player := { st.player with hasSpeedBoost := true } }
    | CollectibleType.checkpoint =>
        let stMid : CollectState :=
          if !c0.activated then
            { st with
              item :=
                { c0 with
                  activated := true
                  meshColor := 0x00ff00
                  meshEmissive := 0x00aa00
                  meshOpacity := 0.9 }
              player :=
                { st.player with
                  spawnPosition := ⟨c0.meshPos.x, c0.meshPos.y + 1, c0.meshPos.z⟩ }
              events :=
                if st.events.onCheckpointRegistered then
                  { st.events with
                    checkpointCallbackCount := st.events.checkpointCallbackCount + 1 }
                else st.events }
          else { st with item := c0 }
        { stMid with item := { stMid.item with collected := false } }
  if st1.events.onCollectibleRegistered then
    { st1 with events :=
        { st1.events with generalCallbackCount := st1.events.generalCallbackCount + 1 } }
  else st1

end Collect

namespace DPlat

/-- The state of a disappearing platform as created by
ObstaclesManager.createDisappearingPlatform (obstacles.js lines 307-407):
mesh fields (position, visibility, material opacity), body fields
(position, collisionResponse) and the behaviour-specific timers.  The
disappearDelay field is initialized to 0.5 but no code in the repository
ever reads it. -/
structure DPlatform where
  meshPos : Vec3 ℚ
  meshVisible : Bool
  meshOpacity : ℚ
  bodyPos : Vec3 ℚ
  bodyCollisionResponse : Bool
  initialPosition : Vec3 ℚ
  touchTime : ℚ
  disappearDelay : ℚ
  disappearDuration : ℚ
  respawnDuration : ℚ
  isDisappearing : Bool
  isDisappeared : Bool
  disappearTimer : ℚ
  respawnTimer : ℚ
  deriving DecidableEq

/-- createDisappearingPlatform (obstacles.js lines 307-345): fresh solid
platform at the given position with the constructor constants
disappearDelay 0.5, disappearDuration 2.0, respawnDuration 3.0. -/
def createDisappearingPlatform (position : Vec3 ℚ) : DPlatform :=
  { meshPos := position
    meshVisible := true
    meshOpacity := 1.0
    bodyPos := position
    bodyCollisionResponse := true
    initialPosition := position
    touchTime := 0
    disappearDelay := 0.5
    disappearDuration := 2.0
    respawnDuration := 3.0
    isDisappearing := false
    isDisappeared := false
    disappearTimer := 0
    respawnTimer := 0 }

/-- platform.update (obstacles.js lines 348-389).  While disappearing:
accumulate disappearTimer; once it reaches disappearDuration, become
disappeared (mesh hidden, collision response off, respawn timer started),
otherwise fade opacity and sink the mesh by up to 0.5 units.  While
disappeared: accumulate respawnTimer; once it reaches respawnDuration,
restore mesh and body to the initial position with full opacity and
collision response (the respawnTimer keeps its final value: the source
does not reset it). -/
def update (p : DPlatform) (dt : ℚ) : DPlatform :=
  if p.isDisappearing && !p.isDisappeared then
    let t := p.disappearTimer + dt
    if p.disappearDuration ≤ t then
      { p with
        isDisappeared := true
        isDisappearing := false
        disappearTimer := 0
        meshVisible := false
        bodyCollisionResponse := false
        respawnTimer := 0 }
    else
      let progress := t / p.disappearDuration
      { p with
        disappearTimer := t
        meshOpacity := 1 - progress
        meshPos := ⟨p.meshPos.x, p.initialPosition.y - progress * 0.5, p.meshPos.z⟩ }
  else if p.isDisappeared then
    let r := p.respawnTimer + dt
    if p.respawnDuration ≤ r then
      { p with
        isDisappeared := false
        meshVisible := true
        meshOpacity := 1.0
        meshPos := p.initialPosition
        bodyPos := p.initialPosition
        bodyCollisionResponse := true
        respawnTimer := r }
    else { p with respawnTimer := r }
  else p

/-- platform.onPlayerContact (obstacles.js lines 392-397): a solid
platform starts disappearing; contacts during the other two phases are
ignored. -/
def onPlayerContact (p : DPlatform) : DPlatform :=
  if !p.isDisappearing && !p.isDisappeared then
    { p with isDisappearing := true, disappearTimer := 0 }
  else p

/-- Folding platform.update over a list of frame deltas. -/
def applyUpdates (p : DPlatform) (dts : List ℚ) : DPlatform :=
  dts.foldl update p

end DPlat

namespace MPlat

/-- The oscillation axis of a moving platform (level data uses the
strings x and z; y would also be accepted by the code). -/
inductive Axis where
  | x
  | y
  | z
  deriving Repr, DecidableEq

/-- Read the coordinate of a vector along an axis (newPos[obstacle.axis]). -/
def axisGet (v : Vec3 ℚ) : Axis → ℚ
  | Axis.x => v.x
  | Axis.y => v.y
  | Axis.z => v.z

/-- Replace the coordinate of a vector along an axis. -/
def axisSet (v : Vec3 ℚ) (a : Axis) (c : ℚ) : Vec3 ℚ :=
  match a with
  | Axis.x => ⟨c, v.y, v.z⟩
  | Axis.y => ⟨v.x, c, v.z⟩
  | Axis.z => ⟨v.x, v.y, c⟩

/-- A moving-platform obstacle record as created by
LevelManager.createObstacle for type movingPlatform (level.js lines
536-566), plus the body fields that updateObstacles writes. -/
structure MPlatform where
  startPos : Vec3 ℚ
  axis : Axis
  distance : ℚ
  speed : ℚ
  direction : ℚ
  progress : ℚ
  bodyPos : Vec3 ℚ
  bodyVel : Vec3 ℚ
  bodyAngVel : Vec3 ℚ
  deriving DecidableEq

/-- createObstacle, movingPlatform case: direction 1, progress 0, body at
the configured start position. -/
def createMovingPlatform (position : Vec3 ℚ) (axis : Axis) (distance speed : ℚ) : MPlatform :=
  { startPos := position
    axis := axis
    distance := distance
    speed := speed
    direction := 1
    progress := 0
    bodyPos := position
    bodyVel := ⟨0, 0, 0⟩
    bodyAngVel := ⟨0, 0, 0⟩ }

/-- LevelManager.updateObstacles, movingPlatform branch (level.js lines
796-820): advance progress by speed*dt*direction, clamp and flip
direction at distance and at 0, then force-set the body position to
startPos offset along the axis by progress*direction (using the
post-flip values, as the source does) and zero the body velocity and
angular velocity. -/
def update (m : MPlatform) (dt : ℚ) : MPlatform :=
  let pr0 := m.progress + dt * m.speed * m.direction
  let pr : ℚ := if m.distance ≤ pr0 then m.distance else if pr0 ≤ 0 then 0 else pr0
  let dir : ℚ := if m.distance ≤ pr0 then -1 else if pr0 ≤ 0 then 1 else m.direction
  let newCoord := axisGet m.startPos m.axis + pr * dir
  { m with
    progress := pr
    direction := dir
    bodyPos := axisSet m.startPos m.axis newCoord
    bodyVel := ⟨0, 0, 0⟩
    bodyAngVel := ⟨0, 0, 0⟩ }

/-- Iterating update with a fixed per-frame dt. -/
def updateN (m : MPlatform) (dt : ℚ) : ℕ → MPlatform
  | 0 => m
  | Nat.succ n => update (updateN m dt n) dt

/-- Folding update over an arbitrary list of frame deltas. -/
def applyUpdates (m : MPlatform) (dts : List ℚ) : MPlatform :=
  dts.foldl update m

end MPlat

namespace Level

/-- The finish-area data stored by createFinishArea (level.js lines
664-669): center position and radius (the mesh is visual only). -/
structure FinishArea where
  position : Vec3 ℝ
  radius : ℝ

/-- The level-completion state of LevelManager: the completion flag, the
load timestamp recorded by loadLevel (Date.now(), in milliseconds), the
snapshotted completion time (seconds) and the finish area. -/
structure LevelState where
  isLevelComplete : Bool
  startTime : ℝ
  completionTime : ℝ
  finishArea : FinishArea

/-- LevelManager.checkFinish (level.js lines 859-877).  Returns true
immediately (with no state change) once the level is complete; otherwise
compares the horizontal-plane distance from the player position to the
finish center against the finish radius, and on first entry records
completion and snapshots the elapsed seconds since load.  The wall-clock
reading Date.now() is passed in as the now argument (milliseconds). -/
noncomputable def checkFinish (s : LevelState) (playerPosition : Vec3 ℝ) (now : ℝ) :
    Bool × LevelState :=
  if s.isLevelComplete then (true, s)
  else
    let distance := Real.sqrt
      ((playerPosition.x - s.finishArea.position.x) ^ 2 +
       (playerPosition.z - s.finishArea.position.z) ^ 2)
    if distance < s.finishArea.radius then
      (true,
       { s with
         isLevelComplete := true
         completionTime := (now - s.startTime) / 1000 })
    else (false, s)

end Level

namespace Vortex

/-- The vortex obstacle record built by ObstaclesManager.createVortex
(obstacles.js lines 467-542).  The object literal carries exactly the
properties type, mesh, particles, position, radius, strength and
rotationSpeed: it has no physics property, so the this.physics access
inside applyForceToPlayer reads undefined.  That absent binding is
modelled by the physics field, which createVortex sets to none.  The
mesh and the decorative particles are visual only and omitted. -/
structure VortexOb where
  position : Vec3 ℝ
  radius : ℝ
  strength : ℝ
  rotationSpeed : ℝ
  physics : Option Unit

/-- ObstaclesManager.createVortex (obstacles.js lines 409-548) with its
default arguments radius 3 and strength 10 made explicit; the returned
record has no physics binding. -/
def createVortex (position : Vec3 ℝ) (radius strength : ℝ) : VortexOb :=
  { position := position
    radius := radius
    strength := strength
    rotationSpeed := 1.0
    physics := none }

/-- vortex.applyForceToPlayer (obstacles.js lines 513-541), acting on the
force accumulator of the player body (PhysicsSystem.applyForce builds
direction*strength and body.applyForce adds it to the accumulator).
Outside the radius nothing happens.  Inside the radius the source
computes the distance, the linearly scaled force magnitude and the unit
direction towards the center, and then evaluates
this.physics.applyForce(...); since the vortex object has no physics
property this is a property access on undefined, modelled as a TypeError
result.  Were a physics binding present, the accumulated force would be
the inward horizontal vector of magnitude (1 - d/radius)*strength*dt. -/
noncomputable def applyForceToPlayer (v : VortexOb) (playerMeshPos : Vec3 ℝ)
    (playerBodyForce : Vec3 ℝ) (dt : ℝ) : Except String (Vec3 ℝ) :=
  let dx := v.position.x - playerMeshPos.x
  let dz := v.position.z - playerMeshPos.z
  let distanceSquared := dx * dx + dz * dz
  if distanceSquared < v.radius * v.radius then
    let distance := Real.sqrt distanceSquared
    let forceMagnitude := (1 - distance / v.radius) * v.strength
    let direction : Vec3 ℝ := ⟨dx / distance, 0, dz / distance⟩
    match v.physics with
    | none => Except.error "TypeError: this.physics is undefined"
    | some _ =>
        Except.ok
          ⟨playerBodyForce.x + direction.x * (forceMagnitude * dt),
           playerBodyForce.y + direction.y * (forceMagnitude * dt),
           playerBodyForce.z + direction.z * (forceMagnitude * dt)⟩
  else Except.ok playerBodyForce

end Vortex

namespace Powerups

/-- Wall-clock model of the power-up lifetime machinery.  Player.
giveJumpPower and Player.giveSpeedBoost (player.js lines 496-532) set
the ability flag and schedule a setTimeout that clears it duration
seconds later, replacing any previously scheduled timeout; Game.update
(game.js lines 497-515) early-returns before any player update while
paused or not running.  The state keeps the wall clock (seconds), the
two flags with their scheduled expiry deadlines, the jump cooldown
(the one per-frame countdown Player.update does maintain) and the
accumulated simulated time fed to update, to compare the two notions
of time. -/
structure TimedState where
  wallNow : ℚ
  hasJumpPower : Bool
  hasSpeedBoost : Bool
  jumpTimeoutAt : Option ℚ
  boostTimeoutAt : Option ℚ
  jumpCooldown : ℚ
  simTime : ℚ
  deriving DecidableEq

/-- Player.giveJumpPower (player.js lines 496-513): sets hasJumpPower and
(re)schedules the wall-clock timeout that will clear it after duration
seconds; an existing timeout is cleared first, so the deadline is
replaced, not stacked.  The mesh recoloring is visual and omitted. -/
def giveJumpPower (duration : ℚ) (s : TimedState) : TimedState :=
  { s with hasJumpPower := true, jumpTimeoutAt := some (s.wallNow + duration) }

/-- Player.giveSpeedBoost (player.js lines 515-532): same scheme for the
speed-boost flag. -/
def giveSpeedBoost (duration : ℚ) (s : TimedState) : TimedState :=
  { s with hasSpeedBoost := true, boostTimeoutAt := some (s.wallNow + duration) }

/-- The browser event loop runs a scheduled setTimeout callback once the
wall clock has passed its deadline, whether or not the game loop is
updating.  The jump callback clears hasJumpPower, the boost callback
clears hasSpeedBoost (player.js lines 508-512 and 527-531). -/
def fireDueTimeouts (s : TimedState) : TimedState :=
  let s1 :=
    match s.jumpTimeoutAt with
    | some t =>
        if t ≤ s.wallNow then
          { s with hasJumpPower := false, jumpTimeoutAt := none }
        else s
    | none => s
  match s1.boostTimeoutAt with
  | some t =>
      if t ≤ s1.wallNow then
        { s1 with hasSpeedBoost := false, boostTimeoutAt := none }
      else s1
  | none => s1

/-- Wall-clock time passing by d seconds: the clock advances and any
setTimeout whose deadline has been reached fires.  This happens during
pauses as well: pausing only stops Game.update from running. -/
def advanceWallClock (d : ℚ) (s : TimedState) : TimedState :=
  fireDueTimeouts { s with wallNow := s.wallNow + d }

/-- The slice of Player.update (player.js lines 138-158) that concerns
timers: the jump cooldown is decremented by the frame delta, and the
simulated-time accumulator records the delta.  Nothing in Player.update
or Player.updatePowerups reads or writes hasJumpPower or hasSpeedBoost
except for visual stripe pulsing, so the flags are untouched. -/
def playerFrameUpdate (dt : ℚ) (s : TimedState) : TimedState :=
  { s with
    simTime := s.simTime + dt
    jumpCooldown := if 0 < s.jumpCooldown then s.jumpCooldown - dt else s.jumpCooldown }

/-- Game.update (game.js lines 497-554), reduced to its player-update
dispatch: when not running or paused it returns before updating the
player, otherwise the player receives the frame delta. -/
def gameUpdate (running paused : Bool) (dt : ℚ) (s : TimedState) : TimedState :=
  if !running || paused then s else playerFrameUpdate dt s

end Powerups

namespace DPlat

/-- The exact state of a disappearing platform created at pos that has
received one contact and since accumulated a seconds of update time,
while a < disappearDuration: still fading, opacity 1 - a/2, mesh sunk by
(a/2)*0.5, everything else still solid. -/
def fadingState (pos : Vec3 ℚ) (a : ℚ) : DPlatform :=
  { meshPos := ⟨pos.x, pos.y - a / 2 * 0.5, pos.z⟩
    meshVisible := true
    meshOpacity := 1 - a / 2
    bodyPos := pos
    bodyCollisionResponse := true
    initialPosition := pos
    touchTime := 0
    disappearDelay := 0.5
    disappearDuration := 2.0
    respawnDuration := 3.0
    isDisappearing := true
    isDisappeared := false
    disappearTimer := a
    respawnTimer := 0 }

/-- The exact state of a gone platform: invisible and non-colliding, with
the stale opacity o and stale mesh height my left over from the fade, and
r seconds accumulated towards respawn. -/
def goneState (pos : Vec3 ℚ) (o my r : ℚ) : DPlatform :=
  { meshPos := ⟨pos.x, my, pos.z⟩
    meshVisible := false
    meshOpacity := o
    bodyPos := pos
    bodyCollisionResponse := false
    initialPosition := pos
    touchTime := 0
    disappearDelay := 0.5
    disappearDuration := 2.0
    respawnDuration := 3.0
    isDisappearing := false
    isDisappeared := true
    disappearTimer := 0
    respawnTimer := r }

/-- The state right after the platform respawns: identical to a freshly
created platform except that respawnTimer keeps its final value rr (the
source never resets it). -/
def solidAgain (pos : Vec3 ℚ) (rr : ℚ) : DPlatform :=
  { createDisappearingPlatform pos with respawnTimer := rr }

end DPlat

namespace MPlat

/-- The exact state of a moving platform on its outward leg after k
uniform steps of progress increment c each: direction 1, progress k*c,
body offset by k*c along the axis, velocities zeroed. -/
def ascState (pos : Vec3 ℚ) (ax : Axis) (d sp c : ℚ) (k : ℕ) : MPlatform :=
  { startPos := pos
    axis := ax
    distance := d
    speed := sp
    direction := 1
    progress := (k : ℚ) * c
    bodyPos := axisSet pos ax (axisGet pos ax + (k : ℚ) * c)
    bodyVel := ⟨0, 0, 0⟩
    bodyAngVel := ⟨0, 0, 0⟩ }

/-- The exact state of a moving platform on its return leg, j uniform
steps of increment c after reaching the far end: direction -1, progress
d - j*c, body offset by -(d - j*c) along the axis (the source offsets by
progress*direction, so the return leg runs on the far side of the start
position), velocities zeroed. -/
def descState (pos : Vec3 ℚ) (ax : Axis) (d sp c : ℚ) (j : ℕ) : MPlatform :=
  { startPos := pos
    axis := ax
    distance := d
    speed := sp
    direction := -1
    progress := d - (j : ℚ) * c
    bodyPos := axisSet pos ax (axisGet pos ax - (d - (j : ℚ) * c))
    bodyVel := ⟨0, 0, 0⟩
    bodyAngVel := ⟨0, 0, 0⟩ }

end MPlat

/-- A grounded, idle player with no power-ups, resting at the level-1
start position, with the death callback registered (game.js line 279). -/
def idleReal : Player.PlayerState :=
  { bodyPos := ⟨0, 3, 0⟩
    bodyVel := ⟨0, 0, 0⟩
    bodyAngVel := ⟨0, 0, 0⟩
    bodyForce := ⟨0, 0, 0⟩
    meshPos := ⟨0, 3, 0⟩
    spawnPosition := ⟨0, 3, 0⟩
    moveDirX := 0
    moveDirZ := 0
    isMoving := false
    canJump := true
    isJumping := false
    jumpCooldown := 0
    hasJumpPower := false
    hasSpeedBoost := false
    trailActive := false
    deathCallbackRuns := 0
    onDeathRegistered := true }

/-- A player pressing right with horizontal velocity already above the
cap: exercises the clamping branch of applyMovementForces. -/
def movingReal : Player.PlayerState :=
  { idleReal with isMoving := true, moveDirX := 1, bodyVel := ⟨20, 5, 0⟩ }

/-- A coasting player (no move intent) whose horizontal speed, 20,
already exceeds maxSpeed = 10. -/
def dampedReal : Player.PlayerState :=
  { idleReal with isMoving := false, bodyVel := ⟨20, -3, 0⟩ }

/-- A player fallen below the death plane with both power-ups active and
a checkpoint spawn point. -/
def fallenReal : Player.PlayerState :=
  { idleReal with
    meshPos := ⟨7, -11, 2⟩
    bodyVel := ⟨3, -9, 1⟩
    bodyAngVel := ⟨1, 0, 2⟩
    hasJumpPower := true
    hasSpeedBoost := true
    spawnPosition := ⟨12, 3.5, 4⟩ }

/-- The level-1 checkpoint, untouched, with all collectible callbacks
registered (game.js createGameSystems registers all three). -/
def checkpointState : Collect.CollectState :=
  { item := Collect.createCheckpoint ⟨12, 2.5, 4⟩
    player := { spawnPosition := ⟨0, 3, 0⟩, hasJumpPower := false, hasSpeedBoost := false }
    events :=
      { onCoinRegistered := true
        onCheckpointRegistered := true
        onCollectibleRegistered := true
        coinCallbackCount := 0
        coinValueReported := 0
        checkpointCallbackCount := 0
        generalCallbackCount := 0 } }

/-- A freshly created disappearing platform. -/
def dplatSample : DPlat.DPlatform :=
  DPlat.createDisappearingPlatform ⟨2, 1, 2⟩

/-- The level-1 moving platform: axis z, distance 5, speed 2, starting at
(-6, 1, 0) (level.js lines 116-125). -/
def mplatSample : MPlat.MPlatform :=
  MPlat.createMovingPlatform ⟨-6, 1, 0⟩ MPlat.Axis.z 5 2

/-- The level-1 finish zone (radius 1.5 at (12, 2.5, 14)) in a loaded,
not yet completed level. -/
def levelOpen : Level.LevelState :=
  { isLevelComplete := false
    startTime := 1000
    completionTime := 0
    finishArea := { position := ⟨12, 2.5, 14⟩, radius := 1.5 } }

/-- The same level after completion. -/
def levelDone : Level.LevelState :=
  { levelOpen with isLevelComplete := true }

/-- A timed-power-up state at wall-clock zero with nothing scheduled. -/
def timedZero : Powerups.TimedState :=
  { wallNow := 0
    hasJumpPower := false
    hasSpeedBoost := false
    jumpTimeoutAt := none
    boostTimeoutAt := none
    jumpCooldown := 0
    simTime := 0 }

/-- C2: for every player state with hasJumpPower false, a call to jump()
is a no-op: the state (in particular the body velocity and the jump
cooldown) is unchanged and no impulse is applied, even when canJump is
true and the cooldown has elapsed. -/
theorem C2_jump_noop_without_power (s : Player.PlayerState)
    (h : s.hasJumpPower = false) : Player.jump s = s := by
  unfold Player.jump
  cases hc : s.canJump <;> simp [hc, h, Player.isOnJumpPad]

/-- C2 witness: a grounded player with zero cooldown and no jump power is
left exactly unchanged by jump(). -/
theorem C2_witness : idleReal.hasJumpPower = false ∧ Player.jump idleReal = idleReal :=
  ⟨rfl, C2_jump_noop_without_power idleReal rfl⟩

/-- C3: for every player state below the death plane whose death callback
is registered, checkBounds triggers death: the body is placed exactly at
the current spawn point, linear and angular velocity are exactly zero,
both power-up flags are cleared, and the death callback runs once. -/
theorem C3_death_resets_to_spawn (s : Player.PlayerState)
    (hy : s.meshPos.y < -10) (hreg : s.onDeathRegistered = true) :
    (Player.checkBounds s).bodyPos = s.spawnPosition ∧
    (Player.checkBounds s).bodyVel = ⟨0, 0, 0⟩ ∧
    (Player.checkBounds s).bodyAngVel = ⟨0, 0, 0⟩ ∧
    (Player.checkBounds s).hasJumpPower = false ∧
    (Player.checkBounds s).hasSpeedBoost = false ∧
    (Player.checkBounds s).deathCallbackRuns = s.deathCallbackRuns + 1 := by
  unfold Player.checkBounds Player.die Player.respawn
  rw [if_pos hy]
  simp [hreg]

/-- C3 witness: the fallen player is reset to its checkpoint spawn with
zero velocity, cleared power-ups and one death notification. -/
theorem C3_witness :
    fallenReal.meshPos.y < -10 ∧ fallenReal.onDeathRegistered = true ∧
    ((Player.checkBounds fallenReal).bodyPos = fallenReal.spawnPosition ∧
     (Player.checkBounds fallenReal).bodyVel = ⟨0, 0, 0⟩ ∧
     (Player.checkBounds fallenReal).bodyAngVel = ⟨0, 0, 0⟩ ∧
     (Player.checkBounds fallenReal).hasJumpPower = false ∧
     (Player.checkBounds fallenReal).hasSpeedBoost = false ∧
     (Player.checkBounds fallenReal).deathCallbackRuns = fallenReal.deathCallbackRuns + 1) :=
  ⟨by norm_num [fallenReal, idleReal], rfl,
   C3_death_resets_to_spawn fallenReal (by norm_num [fallenReal, idleReal]) rfl⟩

/-- Helper: the jump dispatch at the end of processInput cannot fire for
a player whose ground-contact flag is false. -/
theorem jumpGuard_canJump (inp : Player.InputState) (u : Player.PlayerState)
    (hu : u.canJump = false) :
    (if inp.jump && u.canJump && decide (u.jumpCooldown ≤ 0) then Player.jump u
     else u).canJump = false := by
  rw [hu]
  simpa using hu

/-- Helper: processInput never grounds an airborne player; with canJump
false the jump guard fails and only the move direction changes. -/
theorem processInput_canJump_of_false (s : Player.PlayerState) (inp : Player.InputState)
    (hs : s.canJump = false) : (Player.processInput s inp).canJump = false := by
  unfold Player.processInput
  dsimp only
  apply jumpGuard_canJump
  split_ifs <;> exact hs

/-- Helper: applyMovementForces never touches the ground-contact flag. -/
theorem applyMovementForces_canJump (s : Player.PlayerState) (dt : ℝ) :
    (Player.applyMovementForces s dt).canJump = s.canJump := by
  unfold Player.applyMovementForces
  dsimp only
  split_ifs <;> rfl

/-- Helper: checkBounds keeps canJump false (death respawn also clears it). -/
theorem checkBounds_canJump_of_false (s : Player.PlayerState)
    (hs : s.canJump = false) : (Player.checkBounds s).canJump = false := by
  unfold Player.checkBounds Player.die Player.respawn
  dsimp only
  split_ifs <;> first | rfl | exact hs

/-- C10: immediately after respawn() the ground-contact flag canJump is
false and jumpCooldown is 0.5, and as long as canJump stays false (no
new upward-normal contact has fired) any jump() call leaves the state,
in particular velocity and cooldown, unchanged, and a full frame update
cannot make the player jump-eligible by itself. -/
theorem C10_respawn_blocks_jump (s t : Player.PlayerState) (inp : Player.InputState)
    (dt : ℝ) (ht : t.canJump = false) :
    (Player.respawn s).canJump = false ∧
    (Player.respawn s).jumpCooldown = 0.5 ∧
    Player.jump t = t ∧
    (Player.update t dt inp).canJump = false := by
  refine ⟨rfl, rfl, ?_, ?_⟩
  · unfold Player.jump
    simp [ht]
  · unfold Player.update
    dsimp only
    have h3 : (Player.checkBounds
        (Player.applyMovementForces (Player.processInput t inp) dt)).canJump = false := by
    
      exact checkBounds_canJump_of_false _
        ((applyMovementForces_canJump _ _).trans (processInput_canJump_of_false t inp ht))
    split_ifs <;> simpa using h3

/-- C10 witness: a just-respawned player pressing the jump key cannot
jump and cannot become jump-eligible from updates alone. -/
theorem C10_witness :
    (Player.respawn idleReal).canJump = false ∧
    ((Player.respawn (Player.respawn idleReal)).canJump = false ∧
     (Player.respawn (Player.respawn idleReal)).jumpCooldown = 0.5 ∧
     Player.jump (Player.respawn idleReal) = Player.respawn idleReal ∧
     (Player.update (Player.respawn idleReal) (1 / 60)
        ⟨false, false, false, false, true⟩).canJump = false) :=
  ⟨rfl, C10_respawn_blocks_jump (Player.respawn idleReal) (Player.respawn idleReal)
      ⟨false, false, false, false, true⟩ (1 / 60) rfl⟩

/-- C4: checkpoint pickup is idempotent and monotonic: from a
not-yet-activated checkpoint, two collectItem calls set activated once,
set the spawn point once (to one unit above the checkpoint mesh), fire
the activation callback only on the first call, and leave the collected
flag false after every pickup. -/
theorem C4_checkpoint_idempotent (st : Collect.CollectState)
    (hty : st.item.ctype = Collect.CollectibleType.checkpoint)
    (hact : st.item.activated = false)
    (hreg : st.events.onCheckpointRegistered = true) :
    (Collect.collectItem st).item.activated = true ∧
    (Collect.collectItem (Collect.collectItem st)).item.activated = true ∧
    (Collect.collectItem st).player.spawnPosition =
      ⟨st.item.meshPos.x, st.item.meshPos.y + 1, st.item.meshPos.z⟩ ∧
    (Collect.collectItem st).events.checkpointCallbackCount =
      st.events.checkpointCallbackCount + 1 ∧
    (Collect.collectItem (Collect.collectItem st)).player.spawnPosition =
      (Collect.collectItem st).player.spawnPosition ∧
    (Collect.collectItem (Collect.collectItem st)).events.checkpointCallbackCount =
      (Collect.collectItem st).events.checkpointCallbackCount ∧
    (Collect.collectItem st).item.collected = false ∧
    (Collect.collectItem (Collect.collectItem st)).item.collected = false := by
  cases hco : st.events.onCollectibleRegistered <;>
    simp [Collect.collectItem, hty, hact, hreg, hco]

/-- C4 witness: the untouched level-1 checkpoint collected twice. -/
theorem C4_witness :
    checkpointState.item.ctype = Collect.CollectibleType.checkpoint ∧
    checkpointState.item.activated = false ∧
    ((Collect.collectItem checkpointState).item.activated = true ∧
     (Collect.collectItem (Collect.collectItem checkpointState)).item.activated = true ∧
     (Collect.collectItem checkpointState).player.spawnPosition =
       ⟨checkpointState.item.meshPos.x, checkpointState.item.meshPos.y + 1,
        checkpointState.item.meshPos.z⟩ ∧
     (Collect.collectItem checkpointState).events.checkpointCallbackCount =
       checkpointState.events.checkpointCallbackCount + 1 ∧
     (Collect.collectItem (Collect.collectItem checkpointState)).player.spawnPosition =
       (Collect.collectItem checkpointState).player.spawnPosition ∧
     (Collect.collectItem (Collect.collectItem checkpointState)).events.checkpointCallbackCount =
       (Collect.collectItem checkpointState).events.checkpointCallbackCount ∧
     (Collect.collectItem checkpointState).item.collected = false ∧
     (Collect.collectItem (Collect.collectItem checkpointState)).item.collected = false) :=
  ⟨rfl, rfl, C4_checkpoint_idempotent checkpointState rfl rfl rfl⟩

/-- C9 counterexample: grant the jump power (duration 10 s) and pause the
frame loop.  After 11 s of wall-clock time and zero simulated update
time the power-up has expired (its setTimeout fired), refuting the claim
that no power-up expires while the frame loop is paused; conversely,
20 s worth of simulated update(dt) time with no wall-clock passage
leaves the flag set, refuting that expiry is driven by simulated time. -/
theorem C9_counterexample :
    (Powerups.advanceWallClock 11 (Powerups.giveJumpPower 10 timedZero)).hasJumpPower
      = false ∧
    (Powerups.advanceWallClock 11 (Powerups.giveJumpPower 10 timedZero)).simTime = 0 ∧
    (Powerups.playerFrameUpdate 20 (Powerups.giveJumpPower 10 timedZero)).hasJumpPower
      = true := by
  refine ⟨?_, ?_, ?_⟩ <;>
    norm_num [Powerups.advanceWallClock, Powerups.giveJumpPower,
      Powerups.fireDueTimeouts, Powerups.playerFrameUpdate, timedZero]

/-- C9 amended: power-up expiry is scheduled on the wall clock by the
setTimeout registered in giveJumpPower/giveSpeedBoost, not by simulated
frame time: a frame update (running or paused, any dt) never changes
either ability flag or the scheduled deadline, while wall-clock passage
clears the flag exactly when it reaches the deadline, pause or no
pause. -/
theorem C9_expiry_is_wall_clock (s : Powerups.TimedState) (running paused : Bool)
    (dt d T : ℚ) (hT : s.jumpTimeoutAt = some T) :
    (Powerups.gameUpdate running paused dt s).hasJumpPower = s.hasJumpPower ∧
    (Powerups.gameUpdate running paused dt s).hasSpeedBoost = s.hasSpeedBoost ∧
    (Powerups.gameUpdate running paused dt s).jumpTimeoutAt = s.jumpTimeoutAt ∧
    (Powerups.gameUpdate running paused dt s).boostTimeoutAt = s.boostTimeoutAt ∧
    (T ≤ s.wallNow + d → (Powerups.advanceWallClock d s).hasJumpPower = false) ∧
    (s.wallNow + d < T →
      (Powerups.advanceWallClock d s).hasJumpPower = s.hasJumpPower ∧
      (Powerups.advanceWallClock d s).jumpTimeoutAt = some T) ∧
    (∀ s2 : Powerups.TimedState, ∀ d2 T2 : ℚ, s2.boostTimeoutAt = some T2 →
      T2 ≤ s2.wallNow + d2 → (Powerups.advanceWallClock d2 s2).hasSpeedBoost = false) := by
  refine ⟨?_, ?_, ?_, ?_, ?_, ?_, ?_⟩
  · unfold Powerups.gameUpdate Powerups.playerFrameUpdate
    split_ifs <;> rfl
  · unfold Powerups.gameUpdate Powerups.playerFrameUpdate
    split_ifs <;> rfl
  · unfold Powerups.gameUpdate Powerups.playerFrameUpdate
    split_ifs <;> rfl
  · unfold Powerups.gameUpdate Powerups.playerFrameUpdate
    split_ifs <;> rfl
  · intro hd
    unfold Powerups.advanceWallClock Powerups.fireDueTimeouts
    simp only [hT]
    rw [if_pos (by simpa using hd)]
    cases hb : s.boostTimeoutAt <;> simp only [hb] <;> split_ifs <;> rfl
  · intro hd
    unfold Powerups.advanceWallClock Powerups.fireDueTimeouts
    simp only [hT]
    rw [if_neg (by simp only [not_le]; simpa using hd)]
    cases hb : s.boostTimeoutAt with
    | none => exact ⟨rfl, by simp [hb, hT]⟩
    | some tb =>
        simp only [hb]
        split_ifs <;> exact ⟨rfl, by simp [hT]⟩
  · intro s2 d2 T2 hB hd2
    unfold Powerups.advanceWallClock Powerups.fireDueTimeouts
    cases hj : s2.jumpTimeoutAt with
    | none =>
        simp only [hj, hB]
        rw [if_pos (by simpa using hd2)]
    | some tj =>
        simp only [hj]
        split_ifs with h1 <;> simp only [hB] <;>
          rw [if_pos (by simpa using hd2)]

/-- C9 witness: the jump power granted at wall-clock 0 for 10 seconds is
still scheduled at deadline 10; paused updates do not advance it and 11
seconds of wall time expire it. -/
theorem C9_witness :
    (Powerups.giveJumpPower 10 timedZero).jumpTimeoutAt = some 10 ∧
    ((Powerups.gameUpdate true true 5 (Powerups.giveJumpPower 10 timedZero)).hasJumpPower
        = (Powerups.giveJumpPower 10 timedZero).hasJumpPower ∧
      (Powerups.gameUpdate true true 5 (Powerups.giveJumpPower 10 timedZero)).hasSpeedBoost
        = (Powerups.giveJumpPower 10 timedZero).hasSpeedBoost ∧
      (Powerups.gameUpdate true true 5 (Powerups.giveJumpPower 10 timedZero)).jumpTimeoutAt
        = (Powerups.giveJumpPower 10 timedZero).jumpTimeoutAt ∧
      (Powerups.gameUpdate true true 5 (Powerups.giveJumpPower 10 timedZero)).boostTimeoutAt
        = (Powerups.giveJumpPower 10 timedZero).boostTimeoutAt ∧
      ((10 : ℚ) ≤ (Powerups.giveJumpPower 10 timedZero).wallNow + 11 →
        (Powerups.advanceWallClock 11 (Powerups.giveJumpPower 10 timedZero)).hasJumpPower
          = false) ∧
      ((Powerups.giveJumpPower 10 timedZero).wallNow + 11 < 10 →
        (Powerups.advanceWallClock 11 (Powerups.giveJumpPower 10 timedZero)).hasJumpPower
          = (Powerups.giveJumpPower 10 timedZero).hasJumpPower ∧
        (Powerups.advanceWallClock 11 (Powerups.giveJumpPower 10 timedZero)).jumpTimeoutAt
          = some 10) ∧
      (∀ s2 : Powerups.TimedState, ∀ d2 T2 : ℚ, s2.boostTimeoutAt = some T2 →
        T2 ≤ s2.wallNow + d2 →
        (Powerups.advanceWallClock d2 s2).hasSpeedBoost = false)) :=
  ⟨by norm_num [Powerups.giveJumpPower, timedZero],
   C9_expiry_is_wall_clock (Powerups.giveJumpPower 10 timedZero) true true 5 11 10
     (by norm_num [Powerups.giveJumpPower, timedZero])⟩

/-- C8: evaluation at the failing input.  For a vortex of radius 3 and
strength 10 at the origin and a player one unit away horizontally (so
inside the radius: squared distance 1 < 9), applyForceToPlayer does not
apply the inward force the spec describes: the vortex object literal has
no physics property, so the this.physics.applyForce call is a property
access on undefined and throws a TypeError.  Outside the radius (player
four units away, 16 > 9) the call leaves the force accumulator
untouched, as the claim states. -/
theorem C8_vortex_throws_inside_radius :
    Vortex.applyForceToPlayer (Vortex.createVortex ⟨0, 0, 0⟩ 3 10) ⟨1, 0, 0⟩ ⟨0, 0, 0⟩ (1 / 60)
      = Except.error "TypeError: this.physics is undefined" ∧
    ((0 : ℝ) - 1) * ((0 : ℝ) - 1) + ((0 : ℝ) - 0) * ((0 : ℝ) - 0) < 3 * 3 ∧
    Vortex.applyForceToPlayer (Vortex.createVortex ⟨0, 0, 0⟩ 3 10) ⟨4, 0, 0⟩ ⟨0, 0, 0⟩ (1 / 60)
      = Except.ok ⟨0, 0, 0⟩ := by
  refine ⟨?_, by norm_num, ?_⟩
  · unfold Vortex.applyForceToPlayer Vortex.createVortex
    rw [if_pos (by norm_num)]
  · unfold Vortex.applyForceToPlayer Vortex.createVortex
    rw [if_neg (by norm_num)]

/-- C7: checkFinish is terminal and horizontal-plane only.  A completed
level always reports true with no state change; before completion the
call returns true exactly when the 2D (x, z) distance to the finish
center is below the radius, in which case the state records completion
and snapshots the elapsed time since load; the result never depends on
the vertical coordinate of the player position. -/
theorem C7_checkFinish_terminal (sDone sOpen : Level.LevelState) (p : Vec3 ℝ) (now : ℝ)
    (hDone : sDone.isLevelComplete = true) (hOpen : sOpen.isLevelComplete = false) :
    Level.checkFinish sDone p now = (true, sDone) ∧
    ((Level.checkFinish sOpen p now).1 = true ↔
      Real.sqrt ((p.x - sOpen.finishArea.position.x) ^ 2 +
        (p.z - sOpen.finishArea.position.z) ^ 2) < sOpen.finishArea.radius) ∧
    (Real.sqrt ((p.x - sOpen.finishArea.position.x) ^ 2 +
        (p.z - sOpen.finishArea.position.z) ^ 2) < sOpen.finishArea.radius →
      (Level.checkFinish sOpen p now).2 =
        { sOpen with
          isLevelComplete := true
          completionTime := (now - sOpen.startTime) / 1000 }) ∧
    (∀ q : Vec3 ℝ, q.x = p.x → q.z = p.z →
      Level.checkFinish sOpen q now = Level.checkFinish sOpen p now) := by
  refine ⟨?_, ?_, ?_, ?_⟩
  · unfold Level.checkFinish
    rw [if_pos hDone]
  · unfold Level.checkFinish
    rw [if_neg (by simp [hOpen])]
    dsimp only
    split_ifs with h
    · simpa using h
    · simpa using h
  · intro h
    unfold Level.checkFinish
    rw [if_neg (by simp [hOpen])]
    dsimp only
    rw [if_pos h]
  · intro q hx hz
    unfold Level.checkFinish
    rw [hx, hz]

/-- C7 witness: the spec scenario.  The level-1 finish zone has radius
1.5; a player 0.4 units away horizontally (at a large vertical offset)
completes the level, the completed state is terminal, and the vertical
coordinate is irrelevant. -/
theorem C7_witness :
    levelDone.isLevelComplete = true ∧ levelOpen.isLevelComplete = false ∧
    (Level.checkFinish levelDone ⟨50, -50, 50⟩ 61000 = (true, levelDone) ∧
     ((Level.checkFinish levelOpen ⟨12.4, 99, 14⟩ 61000).1 = true ↔
       Real.sqrt ((12.4 - levelOpen.finishArea.position.x) ^ 2 +
         ((14 : ℝ) - levelOpen.finishArea.position.z) ^ 2) < levelOpen.finishArea.radius) ∧
     (Real.sqrt ((12.4 - levelOpen.finishArea.position.x) ^ 2 +
         ((14 : ℝ) - levelOpen.finishArea.position.z) ^ 2) < levelOpen.finishArea.radius →
       (Level.checkFinish levelOpen ⟨12.4, 99, 14⟩ 61000).2 =
         { levelOpen with
           isLevelComplete := true
           completionTime := (61000 - levelOpen.startTime) / 1000 }) ∧
     (∀ q : Vec3 ℝ, q.x = (12.4 : ℝ) → q.z = (14 : ℝ) →
       Level.checkFinish levelOpen q 61000 =
         Level.checkFinish levelOpen ⟨12.4, 99, 14⟩ 61000)) :=
  ⟨rfl, rfl, C7_checkFinish_terminal levelDone levelOpen ⟨12.4, 99, 14⟩ 61000 rfl rfl⟩

/-- C1 counterexample: the claim quantifies over every initial velocity,
but the clamp only runs in the moving branch.  A coasting player (no
move intent) with horizontal speed 20 keeps speed 19 > maxSpeed = 10
after one applyMovementForces call, because the idle branch only damps
by 0.95 and never clamps. -/
theorem C1_counterexample :
    Player.speedCap dampedReal <
      Player.horizSpeed (Player.applyMovementForces dampedReal 1) := by
  unfold Player.applyMovementForces
  rw [if_neg (by simp [dampedReal, idleReal])]
  unfold Player.horizSpeed Player.speedCap
  rw [if_neg (by simp [dampedReal, idleReal])]
  dsimp only
  rw [show dampedReal.bodyVel.x = (20 : ℝ) from rfl,
    show dampedReal.bodyVel.z = (0 : ℝ) from rfl]
  rw [(Real.lt_sqrt (by norm_num [Player.maxSpeed] : (0 : ℝ) ≤ Player.maxSpeed))]
  norm_num [Player.maxSpeed]

/-- Helper: rescaling a 2D vector of norm above c > 0 by c divided by its
norm brings the norm to exactly c, hence at most c. -/
theorem sqrt_rescale_le (vx vz c : ℝ) (hc : 0 < c)
    (h : c < Real.sqrt (vx ^ 2 + vz ^ 2)) :
    Real.sqrt ((vx * (c / Real.sqrt (vx ^ 2 + vz ^ 2))) ^ 2 +
      (vz * (c / Real.sqrt (vx ^ 2 + vz ^ 2))) ^ 2) ≤ c := by
  set speed := Real.sqrt (vx ^ 2 + vz ^ 2) with hs
  have hsppos : 0 < speed := lt_trans hc h
  have hk : 0 ≤ c / speed := div_nonneg hc.le hsppos.le
  have key : (vx * (c / speed)) ^ 2 + (vz * (c / speed)) ^ 2 =
      (c / speed) ^ 2 * (vx ^ 2 + vz ^ 2) := by ring
  rw [key, Real.sqrt_mul (sq_nonneg _), Real.sqrt_sq hk, ← hs,
    div_mul_cancel₀ c (ne_of_gt hsppos)]

/-- C1 amended: while a move intent is active (isMoving), one
applyMovementForces call leaves the horizontal speed at or below
maxSpeed (boost-amplified when the speed boost is active); the clamp
never touches the vertical velocity component in any state, and without
a move intent the horizontal velocity is damped by the factor 0.95
instead of being clamped. -/
theorem C1_speed_clamped_when_moving (s : Player.PlayerState) (dt : ℝ)
    (hmov : s.isMoving = true) (hdt : 0 < dt) :
    Player.horizSpeed (Player.applyMovementForces s dt) ≤ Player.speedCap s ∧
    (∀ t : Player.PlayerState, (Player.applyMovementForces t dt).bodyVel.y = t.bodyVel.y) ∧
    (∀ t : Player.PlayerState, t.isMoving = false →
      (Player.applyMovementForces t dt).bodyVel.x = t.bodyVel.x * 0.95 ∧
      (Player.applyMovementForces t dt).bodyVel.z = t.bodyVel.z * 0.95) := by
  refine ⟨?_, ?_, ?_⟩
  · unfold Player.applyMovementForces
    rw [if_pos hmov]
    unfold Player.horizSpeed
    dsimp only
    split_ifs with h1 h2 h3
    · dsimp only
      have hcapeq : Player.speedCap s = Player.maxSpeed * Player.speedBoostFactor := by
        simp [Player.speedCap, h1]
      rw [hcapeq]
      exact sqrt_rescale_le s.bodyVel.x s.bodyVel.z _
        (by norm_num [Player.maxSpeed, Player.speedBoostFactor]) h2
    · dsimp only
      have hcapeq : Player.speedCap s = Player.maxSpeed * Player.speedBoostFactor := by
        simp [Player.speedCap, h1]
      rw [hcapeq]
      exact le_of_not_lt h2
    · dsimp only
      have hcapeq : Player.speedCap s = Player.maxSpeed := by
        simp [Player.speedCap, h1]
      rw [hcapeq]
      exact sqrt_rescale_le s.bodyVel.x s.bodyVel.z _
        (by norm_num [Player.maxSpeed]) h3
    · dsimp only
      have hcapeq : Player.speedCap s = Player.maxSpeed := by
        simp [Player.speedCap, h1]
      rw [hcapeq]
      exact le_of_not_lt h3
  · intro t
    unfold Player.applyMovementForces
    dsimp only
    split_ifs <;> rfl
  · intro t ht
    unfold Player.applyMovementForces
    rw [if_neg (by simp [ht])]
    exact ⟨rfl, rfl⟩

/-- C1 witness: a player pressing right with pre-clamp horizontal speed
20 (above the cap) during a 1-second step. -/
theorem C1_witness :
    movingReal.isMoving = true ∧ (0 : ℝ) < 1 ∧
    (Player.horizSpeed (Player.applyMovementForces movingReal 1) ≤ Player.speedCap movingReal ∧
     (∀ t : Player.PlayerState, (Player.applyMovementForces t 1).bodyVel.y = t.bodyVel.y) ∧
     (∀ t : Player.PlayerState, t.isMoving = false →
       (Player.applyMovementForces t 1).bodyVel.x = t.bodyVel.x * 0.95 ∧
       (Player.applyMovementForces t 1).bodyVel.z = t.bodyVel.z * 0.95)) :=
  ⟨rfl, by norm_num, C1_speed_clamped_when_moving movingReal 1 rfl (by norm_num)⟩

/-- Helper: touching a fresh platform puts it at the start of the fade
with timer zero. -/
theorem contact_of_fresh (pos : Vec3 ℚ) :
    DPlat.onPlayerContact (DPlat.createDisappearingPlatform pos) = DPlat.fadingState pos 0 := by
  cases pos with
  | mk px py pz =>
      simp [DPlat.onPlayerContact, DPlat.createDisappearingPlatform, DPlat.fadingState]
      norm_num

/-- Helper: one update that keeps the accumulated fade time below the
2-second disappearDuration just advances the fade. -/
theorem fading_step (pos : Vec3 ℚ) (a dt : ℚ) (h : a + dt < 2) :
    DPlat.update (DPlat.fadingState pos a) dt = DPlat.fadingState pos (a + dt) := by
  unfold DPlat.update DPlat.fadingState
  dsimp only
  rw [if_pos (by decide), if_neg (by rw [not_le]; norm_num; linarith)]
  simp only [Vec3.mk.injEq, DPlat.DPlatform.mk.injEq]
  norm_num

/-- Helper: the update on which the accumulated fade time reaches 2
seconds makes the platform Gone, keeping the stale opacity and mesh
height and starting the respawn timer at zero. -/
theorem fading_to_gone (pos : Vec3 ℚ) (a dt : ℚ) (h : 2 ≤ a + dt) :
    DPlat.update (DPlat.fadingState pos a) dt =
      DPlat.goneState pos (1 - a / 2) (pos.y - a / 2 * 0.5) 0 := by
  unfold DPlat.update DPlat.fadingState DPlat.goneState
  dsimp only
  rw [if_pos (by decide), if_pos (by norm_num; linarith)]

/-- Helper: one update that keeps the accumulated respawn time below the
3-second respawnDuration just advances the respawn timer. -/
theorem gone_step (pos : Vec3 ℚ) (o my r dt : ℚ) (h : r + dt < 3) :
    DPlat.update (DPlat.goneState pos o my r) dt = DPlat.goneState pos o my (r + dt) := by
  unfold DPlat.update DPlat.goneState
  dsimp only
  rw [if_neg (by decide), if_pos (by decide), if_neg (by rw [not_le]; norm_num; linarith)]

/-- Helper: the update on which the accumulated respawn time reaches 3
seconds restores the platform to its created state (only the respawn
timer keeps its final value). -/
theorem gone_to_solid (pos : Vec3 ℚ) (o my r dt : ℚ) (h : 3 ≤ r + dt) :
    DPlat.update (DPlat.goneState pos o my r) dt = DPlat.solidAgain pos (r + dt) := by
  unfold DPlat.update DPlat.goneState DPlat.solidAgain DPlat.createDisappearingPlatform
  dsimp only
  rw [if_neg (by decide), if_pos (by decide), if_pos (by norm_num; linarith)]

/-- Helper: a run of nonnegative updates whose total keeps the fade time
below 2 seconds accumulates the timer and stays in the fade phase. -/
theorem fading_run (pos : Vec3 ℚ) :
    ∀ (L : List ℚ) (a : ℚ), (∀ d ∈ L, 0 ≤ d) → a + L.sum < 2 →
      DPlat.applyUpdates (DPlat.fadingState pos a) L = DPlat.fadingState pos (a + L.sum)
  | [], a, _, _ => by simp [DPlat.applyUpdates]
  | d :: ds, a, hnn, hlt => by
      have hds : ∀ x ∈ ds, 0 ≤ x := fun x hx => hnn x (List.mem_cons_of_mem d hx)
      have hsum : 0 ≤ ds.sum := List.sum_nonneg hds
      have hstep : a + d < 2 := by
        have : a + d ≤ a + (d :: ds).sum := by
          simp only [List.sum_cons]
          linarith
        linarith
      have h1 : DPlat.applyUpdates (DPlat.fadingState pos a) (d :: ds) =
          DPlat.applyUpdates (DPlat.update (DPlat.fadingState pos a) d) ds := rfl
      rw [h1, fading_step pos a d hstep,
        fading_run pos ds (a + d) hds (by simp only [List.sum_cons] at hlt; linarith)]
      simp only [List.sum_cons]
      ring_nf

/-- Helper: a run of nonnegative updates whose total keeps the respawn
time below 3 seconds accumulates the respawn timer and stays Gone. -/
theorem gone_run (pos : Vec3 ℚ) (o my : ℚ) :
    ∀ (L : List ℚ) (r : ℚ), (∀ d ∈ L, 0 ≤ d) → r + L.sum < 3 →
      DPlat.applyUpdates (DPlat.goneState pos o my r) L = DPlat.goneState pos o my (r + L.sum)
  | [], r, _, _ => by simp [DPlat.applyUpdates]
  | d :: ds, r, hnn, hlt => by
      have hds : ∀ x ∈ ds, 0 ≤ x := fun x hx => hnn x (List.mem_cons_of_mem d hx)
      have hsum : 0 ≤ ds.sum := List.sum_nonneg hds
      have hstep : r + d < 3 := by
        have : r + d ≤ r + (d :: ds).sum := by
          simp only [List.sum_cons]
          linarith
        linarith
      have h1 : DPlat.applyUpdates (DPlat.goneState pos o my r) (d :: ds) =
          DPlat.applyUpdates (DPlat.update (DPlat.goneState pos o my r) d) ds := rfl
      rw [h1, gone_step pos o my r d hstep,
        gone_run pos o my ds (r + d) hds (by simp only [List.sum_cons] at hlt; linarith)]
      simp only [List.sum_cons]
      ring_nf

/-- C5 counterexample: the claim uses the 0.5-second disappearDelay
constant, but update compares the timer against disappearDuration = 2.0
(the disappearDelay field is never read).  After one contact and 0.5
cumulative seconds the platform is still solid, not Gone; and after it
does become Gone (2 seconds), a further 2.0 cumulative seconds do not
bring it back (respawnDuration is 3.0, not 2.0). -/
theorem C5_counterexample :
    (DPlat.update (DPlat.onPlayerContact dplatSample) 0.5).isDisappeared = false ∧
    (DPlat.update (DPlat.onPlayerContact dplatSample) 0.5).meshVisible = true ∧
    (DPlat.update (DPlat.onPlayerContact dplatSample) 0.5).bodyCollisionResponse = true ∧
    (DPlat.update (DPlat.onPlayerContact dplatSample) 2).isDisappeared = true ∧
    (DPlat.update (DPlat.update (DPlat.onPlayerContact dplatSample) 2) 2).isDisappeared
      = true := by
  have hc : DPlat.onPlayerContact dplatSample = DPlat.fadingState ⟨2, 1, 2⟩ 0 := by
    rw [show dplatSample = DPlat.createDisappearingPlatform ⟨2, 1, 2⟩ from rfl,
      contact_of_fresh]
  have hhalf : DPlat.update (DPlat.onPlayerContact dplatSample) 0.5 =
      DPlat.fadingState ⟨2, 1, 2⟩ (0 + 0.5) := by
    rw [hc, fading_step ⟨2, 1, 2⟩ 0 0.5 (by norm_num)]
  have hgone : DPlat.update (DPlat.onPlayerContact dplatSample) 2 =
      DPlat.goneState ⟨2, 1, 2⟩ (1 - 0 / 2) ((1 : ℚ) - 0 / 2 * 0.5) 0 := by
    rw [hc, fading_to_gone ⟨2, 1, 2⟩ 0 2 (by norm_num)]
  have hstill : DPlat.update (DPlat.update (DPlat.onPlayerContact dplatSample) 2) 2 =
      DPlat.goneState ⟨2, 1, 2⟩ (1 - 0 / 2) ((1 : ℚ) - 0 / 2 * 0.5) (0 + 2) := by
    rw [hgone, gone_step _ _ _ 0 2 (by norm_num)]
  exact ⟨by rw [hhalf]; rfl, by rw [hhalf]; rfl, by rw [hhalf]; rfl,
    by rw [hgone]; rfl, by rw [hstill]; rfl⟩

/-- C5 amended: starting Solid, after one onPlayerContact and update
calls whose cumulative dt reaches 2.0 seconds (not 0.5: the code
compares against disappearDuration = 2.0; the 0.5 disappearDelay field
is dead), the platform is Gone: invisible with collision response
disabled.  After further update calls whose additional cumulative dt
reaches 3.0 seconds (not 2.0: respawnDuration is 3.0), it is back Solid
at its original position with opacity 1 and collision restored. -/
theorem C5_disappearing_platform_cycle (pos : Vec3 ℚ) (L1 L2 : List ℚ) (t1 t2 : ℚ)
    (h1 : ∀ d ∈ L1, 0 ≤ d) (hs1 : L1.sum < 2) (ht1 : 2 ≤ L1.sum + t1)
    (h2 : ∀ d ∈ L2, 0 ≤ d) (hs2 : L2.sum < 3) (ht2 : 3 ≤ L2.sum + t2) :
    (DPlat.update (DPlat.applyUpdates
        (DPlat.onPlayerContact (DPlat.createDisappearingPlatform pos)) L1) t1).isDisappeared
      = true ∧
    (DPlat.update (DPlat.applyUpdates
        (DPlat.onPlayerContact (DPlat.createDisappearingPlatform pos)) L1) t1).meshVisible
      = false ∧
    (DPlat.update (DPlat.applyUpdates
        (DPlat.onPlayerContact (DPlat.createDisappearingPlatform pos)) L1)
        t1).bodyCollisionResponse = false ∧
    (DPlat.update (DPlat.applyUpdates (DPlat.update (DPlat.applyUpdates
        (DPlat.onPlayerContact (DPlat.createDisappearingPlatform pos)) L1) t1) L2) t2) =
      DPlat.solidAgain pos (L2.sum + t2) ∧
    (DPlat.solidAgain pos (L2.sum + t2)).isDisappeared = false ∧
    (DPlat.solidAgain pos (L2.sum + t2)).isDisappearing = false ∧
    (DPlat.solidAgain pos (L2.sum + t2)).meshVisible = true ∧
    (DPlat.solidAgain pos (L2.sum + t2)).meshOpacity = 1 ∧
    (DPlat.solidAgain pos (L2.sum + t2)).meshPos = pos ∧
    (DPlat.solidAgain pos (L2.sum + t2)).bodyPos = pos ∧
    (DPlat.solidAgain pos (L2.sum + t2)).bodyCollisionResponse = true := by
  have hGone : DPlat.update (DPlat.applyUpdates
      (DPlat.onPlayerContact (DPlat.createDisappearingPlatform pos)) L1) t1 =
      DPlat.goneState pos (1 - L1.sum / 2) (pos.y - L1.sum / 2 * 0.5) 0 := by
    rw [contact_of_fresh pos, fading_run pos L1 0 h1 (by linarith),
      zero_add, fading_to_gone pos L1.sum t1 ht1]
  have hSolid : DPlat.update (DPlat.applyUpdates (DPlat.update (DPlat.applyUpdates
      (DPlat.onPlayerContact (DPlat.createDisappearingPlatform pos)) L1) t1) L2) t2 =
      DPlat.solidAgain pos (L2.sum + t2) := by
    rw [hGone, gone_run pos _ _ L2 0 h2 (by linarith), zero_add,
      gone_to_solid pos _ _ L2.sum t2 ht2]
  refine ⟨by rw [hGone]; rfl, by rw [hGone]; rfl, by rw [hGone]; rfl, hSolid,
    rfl, rfl, rfl, by norm_num [DPlat.solidAgain, DPlat.createDisappearingPlatform],
    rfl, rfl, rfl⟩

/-- C5 witness: contact, then updates of 0.4 and 1.0 seconds (still
fading), a 0.7-second update reaching the 2.0-second mark (now Gone),
then 1.0 and 1.5 seconds (still gone) and a 0.6-second update reaching
the 3.0-second mark (Solid again at the original position). -/
theorem C5_witness :
    (∀ d ∈ [(0.4 : ℚ), 1.0], 0 ≤ d) ∧ ([(0.4 : ℚ), 1.0].sum < 2) ∧
      ((2 : ℚ) ≤ [(0.4 : ℚ), 1.0].sum + 0.7) ∧
    (∀ d ∈ [(1.0 : ℚ), 1.5], 0 ≤ d) ∧ ([(1.0 : ℚ), 1.5].sum < 3) ∧
      ((3 : ℚ) ≤ [(1.0 : ℚ), 1.5].sum + 0.6) ∧
    ((DPlat.update (DPlat.applyUpdates
        (DPlat.onPlayerContact (DPlat.createDisappearingPlatform ⟨2, 1, 2⟩))
        [(0.4 : ℚ), 1.0]) 0.7).isDisappeared = true ∧
     (DPlat.update (DPlat.applyUpdates (DPlat.update (DPlat.applyUpdates
        (DPlat.onPlayerContact (DPlat.createDisappearingPlatform ⟨2, 1, 2⟩))
        [(0.4 : ℚ), 1.0]) 0.7) [(1.0 : ℚ), 1.5]) 0.6) =
      DPlat.solidAgain ⟨2, 1, 2⟩ ([(1.0 : ℚ), 1.5].sum + 0.6)) := by
  have hm1 : ∀ d ∈ [(0.4 : ℚ), 1.0], 0 ≤ d := by
    intro d hd
    fin_cases hd <;> norm_num
  have hm2 : ∀ d ∈ [(1.0 : ℚ), 1.5], 0 ≤ d := by
    intro d hd
    fin_cases hd <;> norm_num
  have hsum1 : ([(0.4 : ℚ), 1.0].sum) = 1.4 := by
    norm_num [List.sum_cons, List.sum_nil]
  have hsum2 : ([(1.0 : ℚ), 1.5].sum) = 2.5 := by
    norm_num [List.sum_cons, List.sum_nil]
  have main := C5_disappearing_platform_cycle ⟨2, 1, 2⟩ [(0.4 : ℚ), 1.0] [(1.0 : ℚ), 1.5]
    0.7 0.6 hm1 (by rw [hsum1]; norm_num) (by rw [hsum1]; norm_num)
    hm2 (by rw [hsum2]; norm_num) (by rw [hsum2]; norm_num)
  exact ⟨hm1, by rw [hsum1]; norm_num, by rw [hsum1]; norm_num,
    hm2, by rw [hsum2]; norm_num, by rw [hsum2]; norm_num,
    main.1, main.2.2.2.1⟩

/-- Helper: writing back the coordinate an axis already has is the
identity. -/
theorem axisSet_axisGet (v : Vec3 ℚ) (a : MPlat.Axis) :
    MPlat.axisSet v a (MPlat.axisGet v a) = v := by
  cases a <;> cases v <;> rfl

/-- Helper: an outward-leg step that stays strictly inside (0, distance)
just advances progress by one increment. -/
theorem update_ascState_mid (pos : Vec3 ℚ) (ax : MPlat.Axis) (d sp dt c : ℚ) (n k : ℕ)
    (hcd : c = sp * dt) (hc : 0 < c) (hd : d = (n : ℚ) * c) (hk : k + 1 < n) :
    MPlat.update (MPlat.ascState pos ax d sp c k) dt = MPlat.ascState pos ax d sp c (k + 1) := by
  have hkc : ((k : ℚ) + 1) * c < (n : ℚ) * c :=
    mul_lt_mul_of_pos_right (by exact_mod_cast hk) hc
  have hpr : (k : ℚ) * c + dt * sp * 1 = ((k : ℚ) + 1) * c := by
    rw [hcd]; ring
  have h1 : ¬(d ≤ (k : ℚ) * c + dt * sp * 1) := by
    rw [hpr, hd]
    exact not_le.mpr hkc
  have h2 : ¬((k : ℚ) * c + dt * sp * 1 ≤ 0) := by
    rw [hpr]
    exact not_le.mpr (mul_pos (by positivity) hc)
  have e1 : ((k + 1 : ℕ) : ℚ) * c = (k : ℚ) * c + dt * sp := by
    push_cast
    rw [hcd]
    ring
  unfold MPlat.update MPlat.ascState
  dsimp only
  simp only [if_neg h1, if_neg h2]
  rw [e1]
  simp only [mul_one]

/-- Helper: the outward-leg step that lands exactly on the far end clamps
progress to distance, flips direction to -1 and, because the source
offsets by progress*direction, teleports the body to the far side of the
start position. -/
theorem update_ascState_top (pos : Vec3 ℚ) (ax : MPlat.Axis) (d sp dt c : ℚ) (n k : ℕ)
    (hcd : c = sp * dt) (hc : 0 < c) (hd : d = (n : ℚ) * c) (hk : k + 1 = n) :
    MPlat.update (MPlat.ascState pos ax d sp c k) dt = MPlat.descState pos ax d sp c 0 := by
  have hn : (n : ℚ) = (k : ℚ) + 1 := by exact_mod_cast hk.symm
  have hpr : (k : ℚ) * c + dt * sp * 1 = d := by
    rw [hd, hn, hcd]
    ring
  have h1 : d ≤ (k : ℚ) * c + dt * sp * 1 := by rw [hpr]
  have e0 : d - ((0 : ℕ) : ℚ) * c = d := by
    push_cast
    ring
  unfold MPlat.update MPlat.ascState MPlat.descState
  dsimp only
  simp only [if_pos h1]
  rw [e0]
  simp only [mul_neg_one, ← sub_eq_add_neg]

/-- Helper: a return-leg step that stays strictly inside (0, distance)
just retracts progress by one increment. -/
theorem update_descState_mid (pos : Vec3 ℚ) (ax : MPlat.Axis) (d sp dt c : ℚ) (n j : ℕ)
    (hcd : c = sp * dt) (hc : 0 < c) (hd : d = (n : ℚ) * c) (hj : j + 1 < n) :
    MPlat.update (MPlat.descState pos ax d sp c j) dt =
      MPlat.descState pos ax d sp c (j + 1) := by
  have hjn : ((j : ℚ) + 1) * c < (n : ℚ) * c :=
    mul_lt_mul_of_pos_right (by exact_mod_cast hj) hc
  have hpr : d - (j : ℚ) * c + dt * sp * -1 = d - ((j : ℚ) + 1) * c := by
    rw [hcd]; ring
  have h1 : ¬(d ≤ d - (j : ℚ) * c + dt * sp * -1) := by
    rw [hpr]
    have : 0 < ((j : ℚ) + 1) * c := mul_pos (by positivity) hc
    linarith
  have h2 : ¬(d - (j : ℚ) * c + dt * sp * -1 ≤ 0) := by
    rw [hpr, hd]
    linarith
  have e1 : d - ((j + 1 : ℕ) : ℚ) * c = d - (j : ℚ) * c + dt * sp * -1 := by
    push_cast
    rw [hcd]
    ring
  unfold MPlat.update MPlat.descState
  dsimp only
  simp only [if_neg h1, if_neg h2]
  rw [e1]
  simp only [mul_neg_one, ← sub_eq_add_neg]

/-- Helper: the return-leg step that lands exactly back on zero clamps
progress to 0, flips direction to 1 and puts the body back on the start
coordinate. -/
theorem update_descState_bottom (pos : Vec3 ℚ) (ax : MPlat.Axis) (d sp dt c : ℚ) (n j : ℕ)
    (hcd : c = sp * dt) (hc : 0 < c) (hd : d = (n : ℚ) * c) (hj : j + 1 = n) :
    MPlat.update (MPlat.descState pos ax d sp c j) dt = MPlat.ascState pos ax d sp c 0 := by
  have hn : (n : ℚ) = (j : ℚ) + 1 := by exact_mod_cast hj.symm
  have hpr : d - (j : ℚ) * c + dt * sp * -1 = 0 := by
    rw [hd, hn, hcd]
    ring
  have hdpos : 0 < d := by
    rw [hd, hn]
    exact mul_pos (by positivity) hc
  have h1 : ¬(d ≤ d - (j : ℚ) * c + dt * sp * -1) := by
    rw [hpr]
    linarith
  have h2 : d - (j : ℚ) * c + dt * sp * -1 ≤ 0 := by
    rw [hpr]
  have e0 : ((0 : ℕ) : ℚ) * c = 0 := by
    push_cast
    ring
  unfold MPlat.update MPlat.descState MPlat.ascState
  dsimp only
  simp only [if_neg h1, if_pos h2]
  rw [e0]
  simp only [mul_one]

/-- Helper: the first n - 1 uniform steps from the start walk the
outward leg. -/
theorem updateN_asc (pos : Vec3 ℚ) (ax : MPlat.Axis) (d sp dt c : ℚ) (n : ℕ)
    (hcd : c = sp * dt) (hc : 0 < c) (hd : d = (n : ℚ) * c) :
    ∀ k : ℕ, k < n →
      MPlat.updateN (MPlat.ascState pos ax d sp c 0) dt k = MPlat.ascState pos ax d sp c k
  | 0, _ => rfl
  | k + 1, hk => by
      have ih := updateN_asc pos ax d sp dt c n hcd hc hd k (Nat.lt_of_succ_lt hk)
      have hstep := update_ascState_mid pos ax d sp dt c n k hcd hc hd hk
      calc MPlat.updateN (MPlat.ascState pos ax d sp c 0) dt (k + 1)
          = MPlat.update (MPlat.updateN (MPlat.ascState pos ax d sp c 0) dt k) dt := rfl
        _ = MPlat.update (MPlat.ascState pos ax d sp c k) dt := by rw [ih]
        _ = MPlat.ascState pos ax d sp c (k + 1) := hstep

/-- Helper: steps n through 2n - 1 walk the return leg. -/
theorem updateN_desc (pos : Vec3 ℚ) (ax : MPlat.Axis) (d sp dt c : ℚ) (n : ℕ)
    (hcd : c = sp * dt) (hc : 0 < c) (hd : d = (n : ℚ) * c) :
    ∀ j : ℕ, j < n →
      MPlat.updateN (MPlat.ascState pos ax d sp c 0) dt (n + j) =
        MPlat.descState pos ax d sp c j
  | 0, hj => by
      obtain ⟨k, rfl⟩ : ∃ k, n = k + 1 := ⟨n - 1, (Nat.succ_pred_eq_of_pos hj).symm⟩
      have ih := updateN_asc pos ax d sp dt c (k + 1) hcd hc hd k (Nat.lt_succ_self k)
      have hstep := update_ascState_top pos ax d sp dt c (k + 1) k hcd hc hd rfl
      calc MPlat.updateN (MPlat.ascState pos ax d sp c 0) dt (k + 1 + 0)
          = MPlat.update (MPlat.updateN (MPlat.ascState pos ax d sp c 0) dt k) dt := rfl
        _ = MPlat.update (MPlat.ascState pos ax d sp c k) dt := by rw [ih]
        _ = MPlat.descState pos ax d sp c 0 := hstep
  | j + 1, hj => by
      have ih := updateN_desc pos ax d sp dt c n hcd hc hd j (Nat.lt_of_succ_lt hj)
      have hstep := update_descState_mid pos ax d sp dt c n j hcd hc hd hj
      calc MPlat.updateN (MPlat.ascState pos ax d sp c 0) dt (n + (j + 1))
          = MPlat.update (MPlat.updateN (MPlat.ascState pos ax d sp c 0) dt (n + j)) dt := rfl
        _ = MPlat.update (MPlat.descState pos ax d sp c j) dt := by rw [ih]
        _ = MPlat.descState pos ax d sp c (j + 1) := hstep

/-- Helper: after exactly 2n uniform steps, one full out-and-back cycle,
the state is back to the start of the outward leg. -/
theorem updateN_period (pos : Vec3 ℚ) (ax : MPlat.Axis) (d sp dt c : ℚ) (n : ℕ)
    (hcd : c = sp * dt) (hc : 0 < c) (hd : d = (n : ℚ) * c) (hn : 0 < n) :
    MPlat.updateN (MPlat.ascState pos ax d sp c 0) dt (2 * n) =
      MPlat.ascState pos ax d sp c 0 := by
  obtain ⟨k, rfl⟩ : ∃ k, n = k + 1 := ⟨n - 1, (Nat.succ_pred_eq_of_pos hn).symm⟩
  have ih := updateN_desc pos ax d sp dt c (k + 1) hcd hc hd k (Nat.lt_succ_self k)
  have hstep := update_descState_bottom pos ax d sp dt c (k + 1) k hcd hc hd rfl
  have h2n : 2 * (k + 1) = (k + 1 + k) + 1 := by omega
  calc MPlat.updateN (MPlat.ascState pos ax d sp c 0) dt (2 * (k + 1))
      = MPlat.updateN (MPlat.ascState pos ax d sp c 0) dt ((k + 1 + k) + 1) := by rw [h2n]
    _ = MPlat.update (MPlat.updateN (MPlat.ascState pos ax d sp c 0) dt (k + 1 + k)) dt := rfl
    _ = MPlat.update (MPlat.descState pos ax d sp c k) dt := by rw [ih]
    _ = MPlat.ascState pos ax d sp c 0 := hstep

/-- Helper: a freshly created moving platform is the start of the
outward leg. -/
theorem createMovingPlatform_eq_asc (pos : Vec3 ℚ) (ax : MPlat.Axis) (d sp c : ℚ) :
    MPlat.createMovingPlatform pos ax d sp = MPlat.ascState pos ax d sp c 0 := by
  have e0 : ((0 : ℕ) : ℚ) * c = 0 := by push_cast; ring
  unfold MPlat.createMovingPlatform MPlat.ascState
  rw [e0, add_zero, axisSet_axisGet]

/-- Helper: one update keeps progress inside [0, distance] and does not
change the configured distance. -/
theorem update_progress_bounds (q : MPlat.MPlatform) (t : ℚ)
    (h0 : 0 ≤ q.progress) (hdq : q.progress ≤ q.distance) :
    0 ≤ (MPlat.update q t).progress ∧ (MPlat.update q t).progress ≤ q.distance := by
  unfold MPlat.update
  dsimp only
  split_ifs with ha hb
  · exact ⟨le_trans h0 hdq, le_refl _⟩
  · exact ⟨le_refl 0, le_trans h0 hdq⟩
  · exact ⟨le_of_lt (not_le.mp hb), le_of_lt (not_le.mp ha)⟩

/-- Helper: any run of updates keeps progress inside [0, distance]. -/
theorem applyUpdates_progress_bounds :
    ∀ (L : List ℚ) (q : MPlat.MPlatform), 0 ≤ q.progress → q.progress ≤ q.distance →
      0 ≤ (MPlat.applyUpdates q L).progress ∧
        (MPlat.applyUpdates q L).progress ≤ q.distance
  | [], q, h0, hdq => ⟨h0, hdq⟩
  | t :: ts, q, h0, hdq => by
      have hstep := update_progress_bounds q t h0 hdq
      have hdist : (MPlat.update q t).distance = q.distance := rfl
      have ih := applyUpdates_progress_bounds ts (MPlat.update q t) hstep.1
        (by rw [hdist]; exact hstep.2)
      have h1 : MPlat.applyUpdates q (t :: ts) =
          MPlat.applyUpdates (MPlat.update q t) ts := rfl
      rw [h1]
      exact ⟨ih.1, by rw [← hdist]; exact ih.2⟩

/-- C6 counterexample: the level-1 moving platform (axis z, distance 5,
speed 2, start z = 0).  A single update covering exactly
2*distance/speed = 5 seconds of simulated time does not return the body
to its start coordinate: the overshoot is clamped away and the
progress*direction offset puts the body at z = -5. -/
theorem C6_counterexample :
    (MPlat.update mplatSample 5).bodyPos.z = -5 ∧
    mplatSample.startPos.z = 0 ∧
    (MPlat.update mplatSample 5).bodyPos.z ≠ mplatSample.startPos.z := by
  have ha : (MPlat.update mplatSample 5).bodyPos.z = -5 := by
    rw [show mplatSample = MPlat.createMovingPlatform ⟨-6, 1, 0⟩ MPlat.Axis.z 5 2 from rfl]
    unfold MPlat.update MPlat.createMovingPlatform MPlat.axisSet MPlat.axisGet
    dsimp only
    rw [if_pos (by norm_num)]
    norm_num
  refine ⟨ha, rfl, ?_⟩
  rw [ha, show mplatSample.startPos.z = (0 : ℚ) from rfl]
  norm_num

/-- C6 amended: for a MovingPlatform advanced in uniform steps dt whose
per-step progress increment speed*dt exactly divides the distance
(distance = n increments), 2n steps, exactly 2*distance/speed seconds of
simulated time, return the platform, and in particular its body
coordinate along the configured axis, exactly to the start (for
non-aligned steps the boundary clamp discards the overshoot, so exact
periodicity fails; see the counterexample).  Moreover, for every
platform and every step: progress stays within [0, distance] along any
run, direction flips to -1 when the advanced progress reaches distance
and to 1 when it reaches 0 (and is kept strictly inside), and the body
velocity and angular velocity are zeroed on every step. -/
theorem C6_moving_platform_pingpong (pos : Vec3 ℚ) (ax : MPlat.Axis) (d sp dt : ℚ)
    (n : ℕ) (q : MPlat.MPlatform) (t : ℚ) (dts : List ℚ)
    (hc : 0 < sp * dt) (hd : d = (n : ℚ) * (sp * dt)) (hn : 0 < n)
    (hq0 : 0 ≤ q.progress) (hqd : q.progress ≤ q.distance) :
    MPlat.updateN (MPlat.createMovingPlatform pos ax d sp) dt (2 * n) =
      MPlat.createMovingPlatform pos ax d sp ∧
    MPlat.axisGet (MPlat.updateN (MPlat.createMovingPlatform pos ax d sp) dt (2 * n)).bodyPos
      ax = MPlat.axisGet pos ax ∧
    (0 ≤ (MPlat.applyUpdates q dts).progress ∧
      (MPlat.applyUpdates q dts).progress ≤ q.distance) ∧
    (q.distance ≤ q.progress + t * q.speed * q.direction →
      (MPlat.update q t).direction = -1) ∧
    (q.progress + t * q.speed * q.direction < q.distance →
      q.progress + t * q.speed * q.direction ≤ 0 → (MPlat.update q t).direction = 1) ∧
    (0 < q.progress + t * q.speed * q.direction →
      q.progress + t * q.speed * q.direction < q.distance →
      (MPlat.update q t).direction = q.direction) ∧
    (MPlat.update q t).bodyVel = ⟨0, 0, 0⟩ ∧
    (MPlat.update q t).bodyAngVel = ⟨0, 0, 0⟩ := by
  have hper : MPlat.updateN (MPlat.createMovingPlatform pos ax d sp) dt (2 * n) =
      MPlat.createMovingPlatform pos ax d sp := by
    rw [createMovingPlatform_eq_asc pos ax d sp (sp * dt),
      updateN_period pos ax d sp dt (sp * dt) n rfl hc hd hn]
  refine ⟨hper, by rw [hper]; rfl, applyUpdates_progress_bounds dts q hq0 hqd,
    ?_, ?_, ?_, rfl, rfl⟩
  · intro h
    unfold MPlat.update
    dsimp only
    rw [if_pos h]
  · intro hlt hle
    unfold MPlat.update
    dsimp only
    rw [if_neg (not_le.mpr hlt), if_pos hle]
  · intro h0 hlt
    unfold MPlat.update
    dsimp only
    rw [if_neg (not_le.mpr hlt), if_neg (not_le.mpr h0)]

/-- C6 witness: the level-1 moving platform with uniform 0.5-second
steps: increment 1, ten steps cover 2*5/2 = 5 seconds and return the
body to z = 0; the auxiliary facts are checked on the same platform
with a 3-second step and a short run. -/
theorem C6_witness :
    (0 : ℚ) < 2 * (1 / 2) ∧ (5 : ℚ) = ((5 : ℕ) : ℚ) * (2 * (1 / 2)) ∧ 0 < 5 ∧
    0 ≤ mplatSample.progress ∧ mplatSample.progress ≤ mplatSample.distance ∧
    (MPlat.updateN (MPlat.createMovingPlatform ⟨-6, 1, 0⟩ MPlat.Axis.z 5 2) (1 / 2) (2 * 5) =
      MPlat.createMovingPlatform ⟨-6, 1, 0⟩ MPlat.Axis.z 5 2 ∧
    MPlat.axisGet (MPlat.updateN (MPlat.createMovingPlatform ⟨-6, 1, 0⟩ MPlat.Axis.z 5 2)
      (1 / 2) (2 * 5)).bodyPos MPlat.Axis.z = MPlat.axisGet ⟨-6, 1, 0⟩ MPlat.Axis.z ∧
    (0 ≤ (MPlat.applyUpdates mplatSample [1 / 4, 2]).progress ∧
      (MPlat.applyUpdates mplatSample [1 / 4, 2]).progress ≤ mplatSample.distance) ∧
    (mplatSample.distance ≤
        mplatSample.progress + 3 * mplatSample.speed * mplatSample.direction →
      (MPlat.update mplatSample 3).direction = -1) ∧
    (mplatSample.progress + 3 * mplatSample.speed * mplatSample.direction <
        mplatSample.distance →
      mplatSample.progress + 3 * mplatSample.speed * mplatSample.direction ≤ 0 →
      (MPlat.update mplatSample 3).direction = 1) ∧
    (0 < mplatSample.progress + 3 * mplatSample.speed * mplatSample.direction →
      mplatSample.progress + 3 * mplatSample.speed * mplatSample.direction <
        mplatSample.distance →
      (MPlat.update mplatSample 3).direction = mplatSample.direction) ∧
    (MPlat.update mplatSample 3).bodyVel = ⟨0, 0, 0⟩ ∧
    (MPlat.update mplatSample 3).bodyAngVel = ⟨0, 0, 0⟩) :=
  ⟨by norm_num, by norm_num, by norm_num,
   le_refl 0, by norm_num [mplatSample, MPlat.createMovingPlatform],
   C6_moving_platform_pingpong ⟨-6, 1, 0⟩ MPlat.Axis.z 5 2 (1 / 2) 5 mplatSample 3
     [1 / 4, 2] (by norm_num) (by norm_num) (by norm_num) (le_refl 0)
     (by norm_num [mplatSample, MPlat.createMovingPlatform])⟩
